import Mathlib

/-!
# Verification of the sandboxed tool-execution engine and stdio RPC client

Shallow embedding of `src/tools/executor.py` (class `ToolExecutor`) and
`src/tools/mcp_adapter.py` (class `MCPAdapter`) of the
`autonomous-coding-multimodel` repository, together with proofs of the
claims about path sandboxing, tool dispatch, file operations, grep/bash
post-processing and the RPC session lifecycle.

Conventions of the embedding:
* An absolute filesystem path is a list of path segments (`AbsPath`).
* The filesystem is a finite association of paths to file contents plus a
  set of directories.  File contents are either decodable text or binary
  (a read of binary content raises `UnicodeDecodeError` in Python).
* Python exceptions that can escape a tool implementation are the
  `PyExn` type; `ToolExecutor.execute` converts them to `{error: ...}`
  results, exactly as the `try/except` in the source does.
* External collaborators (the command policy `validate_bash_command`, the
  `rg` binary, `glob.iglob`, the spawned MCP server) are parameters of the
  embedded functions, mirroring their role as external dependencies.
-/

namespace ToolExec

/-! ## Path model (`pathlib.Path` resolution, `ToolExecutor._validate_path`) -/

/-- An absolute path, as the list of its segments from the filesystem root. -/
abbrev AbsPath := List String

/-- Whether a path string is absolute (starts with `/`), as in `pathlib`. -/
def isAbsolute (path : String) : Bool :=
  match path.data with
  | c :: _ => c = '/'
  | [] => false

/-- Split a character list at `/` separators (the list of parts is never
empty, like `str.split("/")`). -/
def splitSlashAux : List Char → List Char → List String
  | cur, [] => [cur.reverse.asString]
  | cur, c :: rest =>
    if c = '/' then cur.reverse.asString :: splitSlashAux [] rest
    else splitSlashAux (c :: cur) rest

/-- Split a path string into its raw segments, dropping empty segments and
`.` segments, as `pathlib` normalisation does. -/
def pathSegments (path : String) : List String :=
  (splitSlashAux [] path.data).filter (fun seg => seg ≠ "" ∧ seg ≠ ".")

/-- One step of lexical `..` resolution: `..` removes the last segment
(staying at the filesystem root when there is none), any other segment is
appended.  This models `Path.resolve()` on the segment list (symbolic links
are outside the model). -/
def resolveStep (acc : List String) (seg : String) : List String :=
  if seg = ".." then acc.dropLast else acc ++ [seg]

/-- Model of `(root / path).resolve()`: if `path` is absolute it overrides `root`
(`pathlib` semantics of `/`), otherwise it is resolved relative to `root`;
then `..` segments are eliminated.  `root` is assumed already resolved
(`project_dir.resolve()` in `ToolExecutor.__init__`). -/
def resolveAgainst (root : AbsPath) (path : String) : AbsPath :=
  let base := if isAbsolute path then [] else root
  (base ++ pathSegments path).foldl resolveStep []

/-- Model of `ToolExecutor._validate_path`: resolve the path against the project
directory and demand that the result stays at or under it
(`resolved.relative_to(self.project_dir)` succeeds exactly on prefixes).
The error carries the `SecurityError` message raised in the source. -/
def validate_path (root : AbsPath) (path : String) : Except String AbsPath :=
  let resolved := resolveAgainst root path
  if root.isPrefixOf resolved then .ok resolved
  else .error ("Path escape attempt blocked: " ++ path)

/-! ## Python string primitives used by the executor -/

/-- Characters on which `str.splitlines` breaks lines. -/
def isLineBreak (c : Char) : Bool :=
  c = '\n' ∨ c = '\r' ∨ c = '\x0b' ∨ c = '\x0c' ∨
  c = '\x1c' ∨ c = '\x1d' ∨ c = '\x1e' ∨ c = '\u0085' ∨
  c = '\u2028' ∨ c = '\u2029'

/-- Model of `str.splitlines` on a character list: split at line-break characters,
treating `\r\n` as a single break, with no trailing empty line. -/
def pySplitlinesAux : List Char → List Char → List (List Char)
  | cur, [] => if cur = [] then [] else [cur.reverse]
  | cur, '\r' :: '\n' :: rest => cur.reverse :: pySplitlinesAux [] rest
  | cur, c :: rest =>
    if isLineBreak c then
      cur.reverse :: pySplitlinesAux [] rest
    else
      pySplitlinesAux (c :: cur) rest

/-- Model of `str.splitlines`, producing strings. -/
def pySplitlines (s : String) : List String :=
  (pySplitlinesAux [] s.data).map List.asString

/-- Python whitespace characters stripped by `str.strip()`. -/
def isPyWhitespace (c : Char) : Bool :=
  c = ' ' ∨ c = '\t' ∨ c = '\n' ∨ c = '\r' ∨ c = '\x0b' ∨ c = '\x0c'

/-- Model of `str.strip()`: drop leading and trailing whitespace. -/
def pyStrip (s : String) : String :=
  (((s.data.dropWhile isPyWhitespace).reverse.dropWhile isPyWhitespace).reverse).asString

/-- Model of `str.startswith(pre)`. -/
def pyStartsWith (s pre : String) : Bool :=
  pre.data.isPrefixOf s.data

/-- Model of `str.count(sub)`: number of non-overlapping occurrences of `sub`,
scanning left to right.  Python counts `len + 1` occurrences of the empty
string. -/
def strCount (s sub : List Char) : Nat :=
  if sub = [] then s.length + 1
  else
    match s with
    | [] => 0
    | c :: rest =>
      if sub.isPrefixOf (c :: rest) then
        1 + strCount (rest.drop (sub.length - 1)) sub
      else
        strCount rest sub
termination_by s.length
decreasing_by
  · simp only [List.length_cons]
    have h := List.length_drop (sub.length - 1) rest
    omega
  · simp

/-- Model of `str.replace(old, new, count)` (`count = none` replaces every
occurrence): non-overlapping left-to-right replacement, with Python's
empty-`old` behaviour of inserting `new` before every character and at the
end. -/
def strReplace (s old new : List Char) (lim : Option Nat) : List Char :=
  if lim = some 0 then s
  else if _h : old = [] then
    match s with
    | [] => new
    | c :: rest => new ++ c :: strReplace rest old new (lim.map (fun n => n - 1))
  else
    match s with
    | [] => []
    | c :: rest =>
      if old.isPrefixOf (c :: rest) then
        new ++ strReplace (rest.drop (old.length - 1)) old new (lim.map (fun n => n - 1))
      else
        c :: strReplace rest old new lim
termination_by s.length
decreasing_by
  · simp
  · simp only [List.length_cons]
    have h := List.length_drop (old.length - 1) rest
    omega
  · simp

/-- Model of `str.replace(old, new)` on strings (every occurrence). -/
def pyReplace (s old new : String) : String :=
  (strReplace s.data old.data new.data none).asString

/-! ## Filesystem model -/

/-- Contents of a regular file: UTF-8 decodable text, or binary data on
which `Path.read_text` raises `UnicodeDecodeError`. -/
inductive Content where
  | text (s : String)
  | binary
deriving DecidableEq, Repr

/-- The filesystem visible to the executor: regular files with their
contents, and directories. -/
structure FileSystem where
  files : List (AbsPath × Content)
  dirs : List AbsPath
deriving DecidableEq, Repr

/-- Content of the regular file at `p`, if one exists. -/
def FileSystem.lookupFile (fs : FileSystem) (p : AbsPath) : Option Content :=
  fs.files.lookup p

/-- Model of `Path.is_file()`. -/
def FileSystem.isFile (fs : FileSystem) (p : AbsPath) : Bool :=
  (fs.lookupFile p).isSome

/-- Model of `Path.is_dir()`. -/
def FileSystem.isDir (fs : FileSystem) (p : AbsPath) : Bool :=
  fs.dirs.contains p

/-- Model of `Path.exists()`: the path names a regular file or a directory. -/
def FileSystem.pathExists (fs : FileSystem) (p : AbsPath) : Bool :=
  fs.isFile p || fs.isDir p

/-- Render an absolute path the way Python prints one. -/
def renderPath (p : AbsPath) : String := "/" ++ String.intercalate "/" p

/-- Render a path relative to the sandbox root (`str(rel_path)`). -/
def renderRelative (segs : List String) : String := String.intercalate "/" segs

/-- Replace the content bound to `p`, or append a new binding. -/
def setFileEntry : List (AbsPath × Content) → AbsPath → Content → List (AbsPath × Content)
  | [], p, c => [(p, c)]
  | (q, d) :: rest, p, c =>
    if q = p then (p, c) :: rest else (q, d) :: setFileEntry rest p c

/-- Every prefix of a path, from the filesystem root down to the path
itself. -/
def ancestors (p : AbsPath) : List AbsPath :=
  (List.range (p.length + 1)).map (fun n => p.take n)

/-- Model of `dir.mkdir(parents=True, exist_ok=True)`: creates the directory and all
missing ancestors; raises (`FileExistsError`/`NotADirectoryError`) when the
directory or one of its ancestors already exists as a regular file
(`exist_ok` only forgives existing *directories*). -/
def FileSystem.mkdirParents (fs : FileSystem) (d : AbsPath) : Except String FileSystem :=
  if (ancestors d).any (fun q => fs.isFile q) then
    .error ("Not a directory: " ++ renderPath d)
  else
    .ok { fs with dirs := ((ancestors d).filter (fun q => ¬ fs.isDir q)) ++ fs.dirs }

/-- Model of `Path.write_text`: overwrite the regular file at `p`; raises
`IsADirectoryError` when `p` is an existing directory. -/
def FileSystem.writeText (fs : FileSystem) (p : AbsPath) (content : String) :
    Except String FileSystem :=
  if fs.isDir p then .error ("Is a directory: " ++ renderPath p)
  else .ok { fs with files := setFileEntry fs.files p (.text content) }

/-! ## Tool results and Python exceptions -/

deriving instance DecidableEq for Except

/-- The executor's result dict: exactly one of `result` or `error`. -/
inductive ToolResult where
  | result (text : String)
  | error (text : String)
deriving DecidableEq, Repr

/-- Exceptions that can escape a tool implementation into
`ToolExecutor.execute`: the deliberately raised `SecurityError`, and
everything else (`KeyError`, `UnicodeDecodeError`, `OSError`, ...) caught
by the generic `except Exception` clause. -/
inductive PyExn where
  | securityError (msg : String)
  | otherError (msg : String)
deriving DecidableEq, Repr

/-- Model of `offset is not None and offset < 0`. -/
def optIntNegative : Option Int → Bool
  | some o => o < 0
  | none => false

/-- Model of `limit is not None and limit < 1`. -/
def optIntBelowOne : Option Int → Bool
  | some l => l < 1
  | none => false

/-- Python truthiness of an optional bool argument (`None` is falsy). -/
def optBoolTruthy : Option Bool → Bool
  | some b => b
  | none => false

/-! ## `ToolExecutor._read_file` -/

/-- Pagination part of `_read_file` (executor.py lines 279-293), reached
once the file is readable and `offset`/`limit` passed validation with at
least one of them supplied. -/
def paginate (content : String) (offset limit : Option Int) : ToolResult :=
  let lines := pySplitlines content
  let total := lines.length
  let start := (offset.getD 0).toNat
  if total = 0 then
    if start = 0 then .result "[lines 0-0 of 0] (file is empty)"
    else .error "Offset beyond end of file (file is empty)"
  else if total ≤ start then
    .error ("Offset " ++ toString start ++ " beyond end of file (total " ++
      toString total ++ " lines)")
  else
    let stop : Int := match limit with
      | some l => if l = 0 then (total : Int) else (start : Int) + l
      | none => (total : Int)
    let selected := (lines.drop start).take (stop - (start : Int)).toNat
    .result ("[lines " ++ toString (start + 1) ++ "-" ++
      toString (min stop (total : Int)) ++ " of " ++ toString total ++ "]\n" ++
      String.intercalate "\n" selected)

/-- Model of `ToolExecutor._read_file` (executor.py lines 256-293).  The wildcard
content branch is the `UnicodeDecodeError` handler; it is only reachable
with binary content, since the `is_file` guard has already ruled out a
missing entry. -/
def read_file (fs : FileSystem) (root : AbsPath) (path : String)
    (offset limit : Option Int) : Except PyExn ToolResult :=
  match validate_path root path with
  | .error msg => .error (.securityError msg)
  | .ok file_path =>
    if ¬ fs.pathExists file_path then .ok (.error ("File not found: " ++ path))
    else if ¬ fs.isFile file_path then .ok (.error ("Not a file: " ++ path))
    else
      match fs.lookupFile file_path with
      | some (.text content) =>
        if optIntNegative offset then .ok (.error "Offset must be zero or positive")
        else if optIntBelowOne limit then .ok (.error "Limit must be positive")
        else
          match offset, limit with
          | none, none => .ok (.result content)
          | _, _ => .ok (paginate content offset limit)
      | _ => .ok (.error ("Cannot read binary file: " ++ path))

/-! ## `ToolExecutor._write_file` -/

/-- Model of `ToolExecutor._write_file` (executor.py lines 295-303): validate the
path, create missing parent directories, overwrite, and report
`len(content)` (the code-point count of the Python string) as the byte
count.  Exceptions leave the filesystem as it was at the point they were
raised. -/
def write_file (fs : FileSystem) (root : AbsPath) (path content : String) :
    Except PyExn ToolResult × FileSystem :=
  match validate_path root path with
  | .error msg => (.error (.securityError msg), fs)
  | .ok file_path =>
    match fs.mkdirParents file_path.dropLast with
    | .error msg => (.error (.otherError msg), fs)
    | .ok fs1 =>
      match fs1.writeText file_path content with
      | .error msg => (.error (.otherError msg), fs1)
      | .ok fs2 =>
        (.ok (.result ("Successfully wrote " ++ toString content.length ++
          " bytes to " ++ path)), fs2)

/-! ## `ToolExecutor._edit_file` -/

/-- The diagnostic preview for a missing `old_string`:
`old_string[:100] + ("..." if len(old_string) > 100 else "")`. -/
def truncPreview (old_string : String) : String :=
  (old_string.data.take 100).asString ++
    (if 100 < old_string.length then "..." else "")

/-- Model of `ToolExecutor._edit_file` (executor.py lines 305-333).  A directory
passes the bare `exists()` guard but `read_text` then raises
`IsADirectoryError`; binary content raises `UnicodeDecodeError`; both are
uncaught here and bubble to `execute`'s generic handler. -/
def edit_file (fs : FileSystem) (root : AbsPath)
    (path old_string new_string : String) (replace_all : Bool) :
    Except PyExn ToolResult × FileSystem :=
  match validate_path root path with
  | .error msg => (.error (.securityError msg), fs)
  | .ok file_path =>
    if ¬ fs.pathExists file_path then (.ok (.error ("File not found: " ++ path)), fs)
    else
      match fs.lookupFile file_path with
      | none => (.error (.otherError ("Is a directory: " ++ renderPath file_path)), fs)
      | some .binary => (.error (.otherError ("UnicodeDecodeError: " ++ path)), fs)
      | some (.text content) =>
        let occurrences := strCount content.data old_string.data
        if occurrences = 0 then
          (.ok (.error ("String not found in file: " ++ truncPreview old_string)), fs)
        else
          let replaced := if ¬ replace_all then 1 else occurrences
          let new_content :=
            if ¬ replace_all then
              (strReplace content.data old_string.data new_string.data (some 1)).asString
            else
              (strReplace content.data old_string.data new_string.data none).asString
          match fs.writeText file_path new_content with
          | .error msg => (.error (.otherError msg), fs)
          | .ok fs2 =>
            (.ok (.result ("Replaced " ++ toString replaced ++
              " occurrence(s) in " ++ path)), fs2)

/-! ## `ToolExecutor._glob_search` -/

/-- Insert a string into a lexicographically sorted list. -/
def insertSorted (s : String) : List String → List String
  | [] => [s]
  | t :: rest => if s ≤ t then s :: t :: rest else t :: insertSorted s rest

/-- Model of `sorted(...)` on strings (lexicographic by code point). -/
def sortStrings : List String → List String
  | [] => []
  | s :: rest => insertSorted s (sortStrings rest)

/-- Model of `ToolExecutor._glob_search` (executor.py lines 335-360).  `glob.iglob`
is an external collaborator, passed in as `globber` (pattern, base
directory ↦ matched entries relative to the base).  Note the Python
truthiness test `if not path`: both `None` and `""` select the project
root without validation. -/
def glob_search (globber : String → AbsPath → List String)
    (fs : FileSystem) (root : AbsPath) (pattern : String) (path : Option String) :
    Except PyExn ToolResult :=
  let pathFalsy := match path with | none => true | some p => p = ""
  match (if pathFalsy then Except.ok root else validate_path root (path.getD "")) with
  | .error msg => .error (.securityError msg)
  | .ok base_dir =>
    if ¬ fs.pathExists base_dir then
      .ok (.error ("Directory not found: " ++ (if pathFalsy then "." else path.getD "")))
    else if ¬ fs.isDir base_dir then
      .ok (.error ("Not a directory: " ++ (if pathFalsy then "." else path.getD "")))
    else
      let found := (globber pattern base_dir).filterMap (fun entry =>
        let full := resolveAgainst base_dir entry
        if root.isPrefixOf full then
          let matched := renderRelative (full.drop root.length)
          some (if matched = "" then "." else matched)
        else
          none)
      if found = [] then .ok (.result "No matches found")
      else .ok (.result (String.intercalate "\n" (sortStrings found.dedup)))

/-! ## `ToolExecutor._grep_search` -/

/-- Outcome of `subprocess.run` with `capture_output=True`. -/
structure RunOut where
  returncode : Int
  stdout : String
  stderr : String
deriving Repr

/-- Python truthiness of the validated `head_limit` argument
(`if head_limit`): set and non-zero. -/
def headLimitTruthy : Option Int → Bool
  | some h => h ≠ 0
  | none => false

/-- Model of `end = start + head_limit if head_limit else len(lines)` of the grep
slicing step. -/
def grepStop (head_limit : Option Int) (start total : Nat) : Nat :=
  match head_limit with
  | some h => if h = 0 then total else start + h.toNat
  | none => total

/-- Post-processing of the completed `rg` invocation (executor.py lines
439-460): strip both streams, map exit codes outside {0,1} to errors,
treat exit code 1 with empty output as `No matches found`, and otherwise
slice the output lines by `offset`/`head_limit`, appending the truncation
marker when `head_limit` is set and lines remain beyond the window. -/
def grepPost (out : RunOut) (head_limit offset : Option Int) : ToolResult :=
  let stdout := pyStrip out.stdout
  let stderr := pyStrip out.stderr
  if ¬ (out.returncode = 0 ∨ out.returncode = 1) then
    .error (if stderr = "" then
      "rg failed with exit code " ++ toString out.returncode else stderr)
  else if out.returncode = 1 ∧ stdout = "" then
    .result "No matches found"
  else
    let lines := pySplitlines stdout
    let start := (offset.getD 0).toNat
    if lines.length ≤ start then .error "Offset skips all output"
    else
      let stop := grepStop head_limit start lines.length
      let sliced := (lines.drop start).take (stop - start)
      let sliced2 :=
        if headLimitTruthy head_limit = true ∧ stop < lines.length then
          sliced ++ ["... (results truncated)"]
        else sliced
      let output0 := String.intercalate "\n" sliced2
      let output := if stderr = "" then output0
        else output0 ++ "\n[stderr]: " ++ stderr
      .result (if output = "" then "(no output)" else output)

/-- Model of `ToolExecutor._grep_search` (executor.py lines 362-460).  The `rg`
binary is external: `rgAvailable` is `shutil.which("rg") is not None` and
`runner` maps the argument vector to the process outcome. -/
def grep_search (rgAvailable : Bool) (runner : List String → RunOut)
    (root : AbsPath)
    (pattern : String) (path : Option String)
    (glob_pattern file_type : Option String) (output_mode : String)
    (before after context : Option Int) (line_numbers ignore_case : Option Bool)
    (head_limit offset : Option Int) (multiline : Bool) : Except PyExn ToolResult :=
  if ¬ rgAvailable then .ok (.error "ripgrep (rg) is not installed")
  else if optIntBelowOne head_limit then .ok (.error "head_limit must be positive")
  else if optIntNegative offset then .ok (.error "offset must be zero or positive")
  else
    let pathArg := match path with
      | none => "."
      | some p => if p = "" then "." else p
    match validate_path root pathArg with
    | .error msg => .error (.securityError msg)
    | .ok target_path =>
      let relative_target :=
        if root.isPrefixOf target_path then
          let r := renderRelative (target_path.drop root.length)
          if r = "" then "." else r
        else
          renderPath target_path
      let cmd1 := ["rg", "--color", "never"] ++
        (match glob_pattern with | some g => ["--glob", g] | none => []) ++
        (match file_type with | some t => ["--type", t] | none => []) ++
        (match context with
          | some c => ["-C", toString c]
          | none =>
            (match before with | some b => ["-B", toString b] | none => []) ++
            (match after with | some a => ["-A", toString a] | none => []))
      let effective_mode := if output_mode = "" then "files_with_matches" else output_mode
      if ¬ (effective_mode = "content" ∨ effective_mode = "files_with_matches" ∨
            effective_mode = "count") then
        .ok (.error ("Invalid output_mode: " ++ effective_mode))
      else
        let cmd2 := cmd1 ++
          (if effective_mode = "files_with_matches" then ["-l"]
           else if effective_mode = "count" then ["-c"]
           else if line_numbers.getD true then ["-n"] else []) ++
          (if optBoolTruthy ignore_case then ["-i"] else []) ++
          (if multiline then ["-U", "--multiline-dotall"] else []) ++
          [pattern, relative_target]
        .ok (grepPost (runner cmd2) head_limit offset)

/-! ## `ToolExecutor._run_bash` -/

/-- Outcome of `subprocess.run(command, shell=True, ..., timeout=300)`:
normal completion, `subprocess.TimeoutExpired`, or any other exception. -/
inductive BashOutcome where
  | completed (stdout stderr : String) (returncode : Int)
  | timedOut
  | raised (msg : String)
deriving Repr

/-- Model of `ToolExecutor._run_bash` (executor.py lines 462-495).  The command
policy `validate_bash_command` is the external Command Policy, passed in
as `policy`.  The boolean in the result records whether a process spawn
was attempted; on denial none is. -/
def run_bash (policy : String → Bool × String) (runner : String → BashOutcome)
    (command : String) : ToolResult × Bool :=
  let allowed := (policy command).1
  let reason := (policy command).2
  if ¬ allowed then (.error ("Command blocked: " ++ reason), false)
  else
    match runner command with
    | .completed stdout stderr returncode =>
      let out1 := if stderr = "" then stdout else stdout ++ "\n[stderr]: " ++ stderr
      let out2 := if returncode = 0 then out1
        else out1 ++ "\n[exit code: " ++ toString returncode ++ "]"
      (.result (if pyStrip out2 = "" then "(no output)" else out2), true)
    | .timedOut => (.error "Command timed out after 5 minutes", true)
    | .raised msg => (.error ("Command execution failed: " ++ msg), true)

/-! ## Argument mapping (`arguments: dict`) -/

/-- A JSON-style argument value as passed by the LLM-facing layer. -/
inductive ArgVal where
  | str (s : String)
  | int (n : Int)
  | bool (b : Bool)
deriving DecidableEq, Repr

/-- Python truthiness of an argument value. -/
def ArgVal.truthy : ArgVal → Bool
  | .str s => s ≠ ""
  | .int n => n ≠ 0
  | .bool b => b

/-- The `arguments` dict: a finite mapping of argument names to values. -/
abbrev Args := List (String × ArgVal)

/-- Model of `arguments[key]` for a string-valued argument.  A missing key raises
`KeyError(key)`, whose `str()` is the quoted key; a value of the wrong
type raises a `TypeError` later inside the operation — both land in the
same generic `except Exception` handler of `execute`. -/
def getRequiredStr (args : Args) (key : String) : Except PyExn String :=
  match args.lookup key with
  | none => .error (.otherError ("'" ++ key ++ "'"))
  | some (.str s) => .ok s
  | some _ => .error (.otherError ("expected a string for " ++ key))

/-- Model of `arguments.get(key)` for an int-valued optional argument; Python's
`bool` is an `int` subtype. -/
def getOptionalInt (args : Args) (key : String) : Except PyExn (Option Int) :=
  match args.lookup key with
  | none => .ok none
  | some (.int n) => .ok (some n)
  | some (.bool b) => .ok (some (if b then 1 else 0))
  | some _ => .error (.otherError ("expected an integer for " ++ key))

/-- Model of `arguments.get(key)` for a string-valued optional argument. -/
def getOptionalStr (args : Args) (key : String) : Except PyExn (Option String) :=
  match args.lookup key with
  | none => .ok none
  | some (.str s) => .ok (some s)
  | some _ => .error (.otherError ("expected a string for " ++ key))

/-- Model of `arguments.get(key, default)` for a string-valued argument. -/
def getStrDefault (args : Args) (key dflt : String) : Except PyExn String :=
  match args.lookup key with
  | none => .ok dflt
  | some (.str s) => .ok s
  | some _ => .error (.otherError ("expected a string for " ++ key))

/-- Model of `arguments.get(key, False)` consumed by a truthiness test
(`replace_all`, `multiline`). -/
def getTruthyDefaultFalse (args : Args) (key : String) : Bool :=
  match args.lookup key with
  | none => false
  | some v => v.truthy

/-- Model of `arguments.get(key)` consumed by a truthiness test, where the code
distinguishes an absent value (`None`) from a falsy one (`-n`, `-i`). -/
def getOptionalTruthy (args : Args) (key : String) : Option Bool :=
  (args.lookup key).map ArgVal.truthy

/-! ## Browser tool detection and delegation -/

/-- The fixed browser-tool enumeration of `_is_browser_tool`. -/
def browserToolNames : List String :=
  ["puppeteer_connect_active_tab", "puppeteer_navigate", "puppeteer_screenshot",
   "puppeteer_click", "puppeteer_fill", "puppeteer_select", "puppeteer_hover",
   "puppeteer_evaluate"]

/-- Model of `ToolExecutor._is_browser_tool` (executor.py lines 116-133): strip the
`mcp__puppeteer__` bridging prefix (via `str.replace`, hence every
occurrence) and look the name up in the fixed set. -/
def isBrowserToolName (tool_name : String) : Bool :=
  let name := if pyStartsWith tool_name "mcp__puppeteer__" then
      pyReplace tool_name "mcp__puppeteer__" ""
    else tool_name
  browserToolNames.contains name

/-- Model of `ToolExecutor._execute_browser_tool` (executor.py lines 135-177).  The
delegated adapter call is modelled as a total function into `ToolResult`:
`MCPAdapter.call_tool` always returns a tagged dict (its body is wrapped
in `try/except`), and any failure of the event-loop plumbing is caught by
the `except Exception` at line 176 and returned as an error dict. -/
def executeBrowserTool (browser : Option (String → Args → ToolResult))
    (tool_name : String) (args : Args) : ToolResult :=
  match browser with
  | none => .error ("Browser tools are not enabled. " ++
      "Start with --enable-browser flag to use browser automation.")
  | some callAdapter => callAdapter tool_name args

/-! ## `ToolExecutor.execute` -/

/-- The executor's external collaborators: the sandbox root, the `rg`
binary, the command policy and shell, `glob.iglob`, and the optional MCP
adapter. -/
structure ExecEnv where
  root : AbsPath
  rgAvailable : Bool
  rgRunner : List String → RunOut
  bashPolicy : String → Bool × String
  bashRunner : String → BashOutcome
  globber : String → AbsPath → List String
  browser : Option (String → Args → ToolResult)

/-- The body of the `try` block of `ToolExecutor.execute` (executor.py
lines 74-110): dispatch on the tool name, extract arguments, run the
matching operation.  Uncaught Python exceptions are the `.error` case of
the `Except`; the filesystem component carries whatever mutations happened
before the exception. -/
def dispatch (env : ExecEnv) (fs : FileSystem) (tool_name : String) (args : Args) :
    Except PyExn ToolResult × FileSystem :=
  if tool_name = "read_file" then
    match getRequiredStr args "path", getOptionalInt args "offset",
          getOptionalInt args "limit" with
    | .ok path, .ok offset, .ok limit => (read_file fs env.root path offset limit, fs)
    | .error e, _, _ => (.error e, fs)
    | _, .error e, _ => (.error e, fs)
    | _, _, .error e => (.error e, fs)
  else if tool_name = "write_file" then
    match getRequiredStr args "path", getRequiredStr args "content" with
    | .ok path, .ok content => write_file fs env.root path content
    | .error e, _ => (.error e, fs)
    | _, .error e => (.error e, fs)
  else if tool_name = "edit_file" then
    match getRequiredStr args "path", getRequiredStr args "old_string",
          getRequiredStr args "new_string" with
    | .ok path, .ok old_string, .ok new_string =>
      edit_file fs env.root path old_string new_string
        (getTruthyDefaultFalse args "replace_all")
    | .error e, _, _ => (.error e, fs)
    | _, .error e, _ => (.error e, fs)
    | _, _, .error e => (.error e, fs)
  else if tool_name = "glob_search" then
    match getRequiredStr args "pattern", getOptionalStr args "path" with
    | .ok pattern, .ok path => (glob_search env.globber fs env.root pattern path, fs)
    | .error e, _ => (.error e, fs)
    | _, .error e => (.error e, fs)
  else if tool_name = "grep_search" then
    match getRequiredStr args "pattern", getOptionalStr args "path",
          getOptionalStr args "glob", getOptionalStr args "type",
          getStrDefault args "output_mode" "files_with_matches" with
    | .ok pattern, .ok path, .ok glob_pattern, .ok file_type, .ok output_mode =>
      (match getOptionalInt args "-B", getOptionalInt args "-A",
             getOptionalInt args "-C", getOptionalInt args "head_limit",
             getOptionalInt args "offset" with
       | .ok before, .ok after, .ok context, .ok head_limit, .ok offset =>
         (grep_search env.rgAvailable env.rgRunner env.root pattern path
           glob_pattern file_type output_mode before after context
           (getOptionalTruthy args "-n") (getOptionalTruthy args "-i")
           head_limit offset (getTruthyDefaultFalse args "multiline"), fs)
       | .error e, _, _, _, _ => (.error e, fs)
       | _, .error e, _, _, _ => (.error e, fs)
       | _, _, .error e, _, _ => (.error e, fs)
       | _, _, _, .error e, _ => (.error e, fs)
       | _, _, _, _, .error e => (.error e, fs))
    | .error e, _, _, _, _ => (.error e, fs)
    | _, .error e, _, _, _ => (.error e, fs)
    | _, _, .error e, _, _ => (.error e, fs)
    | _, _, _, .error e, _ => (.error e, fs)
    | _, _, _, _, .error e => (.error e, fs)
  else if tool_name = "bash" then
    match getRequiredStr args "command" with
    | .ok command => (.ok (run_bash env.bashPolicy env.bashRunner command).1, fs)
    | .error e => (.error e, fs)
  else
    (.ok (.error ("Unknown tool: " ++ tool_name)), fs)

/-- The messages produced by the two `except` clauses of `execute`
(executor.py lines 111-114). -/
def formatExn : PyExn → String
  | .securityError msg => "Security violation: " ++ msg
  | .otherError msg => "Tool execution failed: " ++ msg

/-- Model of `ToolExecutor.execute` (executor.py lines 58-114): browser tools are
delegated, every other name goes through the guarded dispatch, and both
`except` clauses convert exceptions to `{error: ...}` results. -/
def execute (env : ExecEnv) (fs : FileSystem) (tool_name : String) (args : Args) :
    ToolResult × FileSystem :=
  if isBrowserToolName tool_name then
    (executeBrowserTool env.browser tool_name args, fs)
  else
    match dispatch env fs tool_name args with
    | (.ok r, fs') => (r, fs')
    | (.error e, fs') => (.error (formatExn e), fs')

end ToolExec

namespace MCP

open ToolExec (Args ToolResult)

/-! ## Stdio RPC client (`src/tools/mcp_adapter.py`, class `MCPAdapter`) -/

/-- A JSON-RPC request line written to the child's stdin
(`{"jsonrpc": "2.0", "id": ..., "method": ..., "params": {...}}`). -/
structure RpcRequest where
  id : Nat
  method : String
  toolName : String
  arguments : Args
deriving DecidableEq, Repr

/-- One block of `result.content` in a `tools/call` response. -/
inductive ContentBlock where
  | text (s : String)
  | image (mimeType : String)
  | other
deriving DecidableEq, Repr

/-- A parsed JSON-RPC response: either it carries an `error` member (with
the message extracted by `response["error"].get("message", ...)`), or a
`result` whose `content` blocks are listed, `rendered` being `str(result)`
for the content-free fallback. -/
inductive RpcResponse where
  | withError (message : String)
  | withResult (content : List ContentBlock) (rendered : String)
deriving DecidableEq, Repr

/-- What happens on the wire for one request: a response line arrives, the
read times out, the pipe is closed (with whatever the child wrote to
stderr), the write hits a broken pipe, or the line is not valid JSON. -/
inductive WireOutcome where
  | reply (resp : RpcResponse)
  | timedOut
  | closed (stderrText : String)
  | brokenPipe
  | badJson (detail : String)

/-- The mutable state of one `MCPAdapter`: whether `self._process` holds a
live child (with open pipes), the request-id counter, whether the
handshake completed, and the printed form of the configured timeout. -/
structure AdapterState where
  processRunning : Bool
  requestId : Nat
  handshakeDone : Bool
  timeoutRepr : String
deriving DecidableEq, Repr

/-- The state right after `__init__`, before `start()`: no child process
yet. -/
def AdapterState.fresh (timeoutRepr : String) : AdapterState :=
  ⟨false, 0, false, timeoutRepr⟩

/-- Model of `MCPAdapter.stop` (mcp_adapter.py lines 123-142): tears the child down
(all cleanup errors swallowed) and always ends with `self._process = None`
and the session no longer marked ready. -/
def AdapterState.stop (st : AdapterState) : AdapterState :=
  { st with processRunning := false, handshakeDone := false }

/-- Model of `MCPAdapter._send_request` (mcp_adapter.py lines 225-279): with no
live process it raises `MCPError("MCP server not running")` before writing
anything; otherwise it increments the id counter, writes exactly one
request line and reads one response, converting transport failures to
`MCPError`s.  The third component lists the request lines written. -/
def sendRequest (st : AdapterState) (transport : RpcRequest → WireOutcome)
    (method toolName : String) (args : Args) :
    Except String RpcResponse × AdapterState × List RpcRequest :=
  if ¬ st.processRunning then
    (.error "MCP server not running", st, [])
  else
    let rid := st.requestId + 1
    let st' := { st with requestId := rid }
    let req : RpcRequest := ⟨rid, method, toolName, args⟩
    match transport req with
    | .reply resp => (.ok resp, st', [req])
    | .timedOut =>
      (.error ("MCP request timed out after " ++ st.timeoutRepr ++ "s"), st', [req])
    | .closed stderrText =>
      (.error (if stderrText = "" then "MCP server closed connection"
        else "MCP server error: " ++ stderrText), st', [req])
    | .brokenPipe => (.error "MCP server connection broken", st', [req])
    | .badJson detail =>
      (.error ("Invalid JSON response from MCP server: " ++ detail), st', [req])

/-- Strip the `mcp__puppeteer__` bridging prefix from a tool name, as
`call_tool` does before sending (`str.replace`, every occurrence). -/
def stripBridgeTag (tool_name : String) : String :=
  if ToolExec.pyStartsWith tool_name "mcp__puppeteer__" then
    ToolExec.pyReplace tool_name "mcp__puppeteer__" ""
  else tool_name

/-- Concatenate content blocks as `call_tool` does: text blocks contribute
their text, image blocks an `[Image: mime]` placeholder, anything else is
skipped; parts are joined with newlines. -/
def renderBlocks (blocks : List ContentBlock) : String :=
  String.intercalate "\n" (blocks.filterMap (fun b =>
    match b with
    | .text s => some s
    | .image mimeType => some ("[Image: " ++ mimeType ++ "]")
    | .other => none))

/-- Model of `MCPAdapter.call_tool` (mcp_adapter.py lines 158-206): sends a
`tools/call` request and converts every failure — including the
`MCPError` raised when no process is running — into an `{error: ...}`
result via its `except Exception` clause.  Returns the result, the new
adapter state, and the request lines actually written to the child. -/
def call_tool (st : AdapterState) (transport : RpcRequest → WireOutcome)
    (tool_name : String) (args : Args) :
    ToolResult × AdapterState × List RpcRequest :=
  let name := stripBridgeTag tool_name
  match sendRequest st transport "tools/call" name args with
  | (.error msg, st', sent) =>
    (.error ("MCP communication failed: " ++ msg), st', sent)
  | (.ok (.withError message), st', sent) =>
    (.error ("MCP error: " ++ message), st', sent)
  | (.ok (.withResult content rendered), st', sent) =>
    if content = [] then (.result rendered, st', sent)
    else (.result (renderBlocks content), st', sent)

end MCP

namespace ToolExec

/-! ## Specification-side characterisation of string replacement

`ReplAll old new s t n` is the specification reading of "every occurrence
of `old` in `s` is replaced by `new`, giving `t`, and there are `n`
occurrences": the input splits into literal characters, none of which
starts an occurrence of `old`, and `n` occurrences of `old`, each replaced
by `new`.  It is defined independently of `strReplace` and `strCount` and
related to them by theorems below. -/

inductive ReplAll (old new : List Char) : List Char → List Char → Nat → Prop where
  | nil : ReplAll old new [] [] 0
  | skip (c : Char) {s t : List Char} {n : Nat}
      (hnp : ¬ old.isPrefixOf (c :: s) = true) :
      ReplAll old new s t n → ReplAll old new (c :: s) (c :: t) n
  | hit {s t : List Char} {n : Nat} :
      ReplAll old new s t n → ReplAll old new (old ++ s) (new ++ t) (n + 1)

/-! # Theorems -/

/-! ## Equation lemmas for `strCount` and `strReplace` (which are defined
by well-founded recursion) and the occurrence decomposition used by the
`edit_file` claims. -/

theorem strCount_nil_of_ne (sub : List Char) (h : sub ≠ []) :
    strCount [] sub = 0 := by
  rw [strCount.eq_def]
  simp [h]

theorem strCount_cons_pos (c : Char) (rest sub : List Char) (h : sub ≠ [])
    (hp : sub.isPrefixOf (c :: rest) = true) :
    strCount (c :: rest) sub = 1 + strCount (rest.drop (sub.length - 1)) sub := by
  rw [strCount.eq_def]
  simp [h, hp]

theorem strCount_cons_neg (c : Char) (rest sub : List Char) (h : sub ≠ [])
    (hp : sub.isPrefixOf (c :: rest) = false) :
    strCount (c :: rest) sub = strCount rest sub := by
  rw [strCount.eq_def]
  simp [h, hp]

theorem strReplace_limit_zero (s old new : List Char) :
    strReplace s old new (some 0) = s := by
  rw [strReplace.eq_def]
  simp

theorem strReplace_nil_of_ne (old new : List Char) (lim : Option Nat)
    (hold : old ≠ []) (hlim : lim ≠ some 0) :
    strReplace [] old new lim = [] := by
  rw [strReplace.eq_def]
  simp [hold, hlim]

theorem strReplace_cons_pos (c : Char) (rest old new : List Char)
    (lim : Option Nat) (hold : old ≠ []) (hlim : lim ≠ some 0)
    (hp : old.isPrefixOf (c :: rest) = true) :
    strReplace (c :: rest) old new lim =
      new ++ strReplace (rest.drop (old.length - 1)) old new
        (lim.map (fun n => n - 1)) := by
  rw [strReplace.eq_def]
  simp [hold, hlim, hp]

theorem strReplace_cons_neg (c : Char) (rest old new : List Char)
    (lim : Option Nat) (hold : old ≠ []) (hlim : lim ≠ some 0)
    (hp : old.isPrefixOf (c :: rest) = false) :
    strReplace (c :: rest) old new lim = c :: strReplace rest old new lim := by
  rw [strReplace.eq_def]
  simp [hold, hlim, hp]

/-- A verified prefix splits the list. -/
theorem eq_append_of_isPrefixOf {l s : List Char}
    (h : l.isPrefixOf s = true) : s = l ++ s.drop l.length := by
  obtain ⟨t, ht⟩ := List.isPrefixOf_iff_prefix.mp h
  rw [← ht]
  simp

theorem drop_cons_sub_one {α : Type} (c : α) (rest : List α) (n : Nat)
    (h : n ≠ 0) : (c :: rest).drop n = rest.drop (n - 1) := by
  cases n with
  | zero => exact absurd rfl h
  | succ m => simp

/-- Replacing with `count = 1` splits the input at the first occurrence:
the characters before it do not start an occurrence, and only that
occurrence is rewritten. -/
theorem strReplace_first_occurrence_ne (s old new : List Char)
    (hold : old ≠ []) (hocc : 0 < strCount s old) :
    ∃ pre post, s = pre ++ old ++ post ∧
      (∀ k, k < pre.length → old.isPrefixOf (s.drop k) = false) ∧
      strReplace s old new (some 1) = pre ++ new ++ post := by
  match s with
  | [] =>
    rw [strCount_nil_of_ne old hold] at hocc
    omega
  | c :: rest =>
    cases hp : old.isPrefixOf (c :: rest) with
    | true =>
      refine ⟨[], (c :: rest).drop old.length, ?_, by simp, ?_⟩
      · simpa using eq_append_of_isPrefixOf hp
      · rw [strReplace_cons_pos c rest old new (some 1) hold (by simp) hp,
          ← drop_cons_sub_one c rest old.length (by simp [hold])]
        simp [strReplace_limit_zero]
    | false =>
      have hocc' : 0 < strCount rest old := by
        rw [strCount_cons_neg c rest old hold hp] at hocc
        exact hocc
      obtain ⟨pre, post, hsplit, hearly, hrepl⟩ :=
        strReplace_first_occurrence_ne rest old new hold hocc'
      refine ⟨c :: pre, post, by simp [← hsplit], ?_, ?_⟩
      · intro k hk
        cases k with
        | zero => simpa using hp
        | succ j =>
          simp only [List.drop_succ_cons]
          exact hearly j (by simpa using hk)
      · rw [strReplace_cons_neg c rest old new (some 1) hold (by simp) hp]
        simp [hrepl]
termination_by s.length

/-- Unlimited replacement realises the specification-side `ReplAll`
relation at exactly `strCount` many occurrences. -/
theorem strReplace_all_replAll (s old new : List Char) (hold : old ≠ []) :
    ReplAll old new s (strReplace s old new none) (strCount s old) := by
  match s with
  | [] =>
    rw [strReplace_nil_of_ne old new none hold (by simp),
      strCount_nil_of_ne old hold]
    exact ReplAll.nil
  | c :: rest =>
    cases hp : old.isPrefixOf (c :: rest) with
    | true =>
      rw [strReplace_cons_pos c rest old new none hold (by simp) hp,
        strCount_cons_pos c rest old hold hp,
        Nat.add_comm 1 (strCount (rest.drop (old.length - 1)) old)]
      have hgoal := ReplAll.hit
        (strReplace_all_replAll (rest.drop (old.length - 1)) old new hold)
      have hs : c :: rest = old ++ rest.drop (old.length - 1) := by
        rw [← drop_cons_sub_one c rest old.length (by simp [hold])]
        exact eq_append_of_isPrefixOf hp
      rw [hs]
      simpa using hgoal
    | false =>
      rw [strReplace_cons_neg c rest old new none hold (by simp) hp,
        strCount_cons_neg c rest old hold hp]
      exact ReplAll.skip c (by simp [hp])
        (strReplace_all_replAll rest old new hold)
termination_by s.length

/-- Claim C1: A relative path argument whose canonical resolution against
the sandbox root lies outside that root (escapes via `..` sequences or an
absolute-path override) makes `_validate_path` raise `SecurityError`
carrying the offending path, and no mutating file operation touches the
filesystem for such a path; a path whose resolution stays at or under the
root validates to exactly that resolved absolute path. -/
theorem validate_path_sandbox (root : AbsPath) (path : String) :
    (root.isPrefixOf (resolveAgainst root path) = false →
      validate_path root path = .error ("Path escape attempt blocked: " ++ path) ∧
      (∀ fs content, (write_file fs root path content).2 = fs) ∧
      (∀ fs old_string new_string replace_all,
        (edit_file fs root path old_string new_string replace_all).2 = fs)) ∧
    (root.isPrefixOf (resolveAgainst root path) = true →
      validate_path root path = .ok (resolveAgainst root path)) := by
  constructor
  · intro h
    have hv : validate_path root path =
        .error ("Path escape attempt blocked: " ++ path) := by
      simp [validate_path, h]
    refine ⟨hv, fun fs content => ?_, fun fs o n r => ?_⟩
    · simp [write_file, hv]
    · simp [edit_file, hv]
  · intro h
    simp [validate_path, h]

/-- Witness for `validate_path_sandbox`: Scenario B's `../../etc/passwd`
escape is blocked with the specified message, while an ordinary relative
path resolves to the corresponding in-sandbox absolute path. -/
theorem validate_path_sandbox_witness :
    validate_path ["home", "user", "project"] "../../etc/passwd" =
      .error "Path escape attempt blocked: ../../etc/passwd" ∧
    validate_path ["home", "user", "project"] "notes/todo.txt" =
      .ok ["home", "user", "project", "notes", "todo.txt"] := by
  constructor
  · exact ((validate_path_sandbox ["home", "user", "project"]
      "../../etc/passwd").1 (by decide)).1
  · exact ((validate_path_sandbox ["home", "user", "project"]
      "notes/todo.txt").2 (by decide)).trans (congrArg Except.ok (by decide))

/-- Claim C2: `execute` never raises: for every tool name and argument
mapping the outcome is a dict with exactly one of the `result`/`error`
tags; in particular an unknown tool name and a missing required argument
come back as tagged errors, not exceptions. -/
theorem execute_uniform_results (env : ExecEnv) (fs : FileSystem)
    (tool_name : String) (args : Args) :
    (((∃ m, (execute env fs tool_name args).1 = .result m) ∧
        ¬ (∃ m, (execute env fs tool_name args).1 = .error m)) ∨
      ((∃ m, (execute env fs tool_name args).1 = .error m) ∧
        ¬ (∃ m, (execute env fs tool_name args).1 = .result m))) ∧
    (isBrowserToolName tool_name = false →
      tool_name ∉ ["read_file", "write_file", "edit_file", "glob_search",
        "grep_search", "bash"] →
      (execute env fs tool_name args).1 = .error ("Unknown tool: " ++ tool_name)) ∧
    (tool_name = "read_file" → args.lookup "path" = none →
      (execute env fs tool_name args).1 = .error "Tool execution failed: 'path'") := by
  refine ⟨?_, ?_, ?_⟩
  · cases h : (execute env fs tool_name args).1 with
    | result m =>
      left
      refine ⟨⟨m, rfl⟩, ?_⟩
      rintro ⟨m', hm'⟩
      exact ToolResult.noConfusion hm'
    | error m =>
      right
      refine ⟨⟨m, rfl⟩, ?_⟩
      rintro ⟨m', hm'⟩
      exact ToolResult.noConfusion hm'
  · intro hb hn
    simp only [List.mem_cons, List.not_mem_nil, or_false, not_or] at hn
    obtain ⟨h1, h2, h3, h4, h5, h6⟩ := hn
    simp [execute, dispatch, hb, h1, h2, h3, h4, h5, h6]
  · intro ht hl
    subst ht
    have hb : isBrowserToolName "read_file" = false := by decide
    simp [execute, dispatch, hb, getRequiredStr, hl, formatExn]

/-- Witness for `execute_uniform_results`: a made-up tool name produces
the `Unknown tool` error dict, and `read_file` with no `path` argument
produces the `KeyError`-derived error dict. -/
theorem execute_uniform_results_witness :
    (execute ⟨["sandbox"], true, fun _ => ⟨0, "", ""⟩, fun _ => (true, ""),
        fun _ => .timedOut, fun _ _ => [], none⟩
      ⟨[], [["sandbox"]]⟩ "frobnicate" []).1 =
      .error "Unknown tool: frobnicate" ∧
    (execute ⟨["sandbox"], true, fun _ => ⟨0, "", ""⟩, fun _ => (true, ""),
        fun _ => .timedOut, fun _ _ => [], none⟩
      ⟨[], [["sandbox"]]⟩ "read_file" []).1 =
      .error "Tool execution failed: 'path'" := by
  constructor
  · exact (execute_uniform_results _ _ "frobnicate" []).2.1 (by decide) (by decide)
  · exact (execute_uniform_results _ _ "read_file" []).2.2 rfl rfl

/-- Claim C4: `edit_file` on an existing text file that does not contain
`old_string` returns an error carrying the preview of `old_string`
truncated at 100 characters, and performs no write: the filesystem is
returned unchanged. -/
theorem edit_file_missing_old_string (fs : FileSystem) (root : AbsPath)
    (path old_string new_string : String) (replace_all : Bool)
    (file_path : AbsPath) (content : String)
    (hval : validate_path root path = .ok file_path)
    (hfile : fs.lookupFile file_path = some (.text content))
    (habsent : strCount content.data old_string.data = 0) :
    edit_file fs root path old_string new_string replace_all =
      (.ok (.error ("String not found in file: " ++ truncPreview old_string)), fs) := by
  have hex : fs.pathExists file_path = true := by
    simp [FileSystem.pathExists, FileSystem.isFile, hfile]
  simp [edit_file, hval, hex, hfile, habsent]

/-- Witness for `edit_file_missing_old_string`: a concrete file without
the requested string is left untouched and the error carries the (short,
hence untruncated) preview. -/
theorem edit_file_missing_old_string_witness :
    edit_file ⟨[(["sandbox", "f.txt"], .text "hello world")], [["sandbox"]]⟩
      ["sandbox"] "f.txt" "TODO" "DONE" true =
      (.ok (.error ("String not found in file: " ++ truncPreview "TODO")),
       ⟨[(["sandbox", "f.txt"], .text "hello world")], [["sandbox"]]⟩) :=
  edit_file_missing_old_string
    ⟨[(["sandbox", "f.txt"], .text "hello world")], [["sandbox"]]⟩
    ["sandbox"] "f.txt" "TODO" "DONE" true ["sandbox", "f.txt"] "hello world"
    (by decide) (by decide) (by simp [strCount])

/-- Claim C8: A command the Command Policy denies is answered with exactly
the `Command blocked: <reason>` error and no process spawn is attempted;
a spawn is attempted exactly when the policy allows the command. -/
theorem run_bash_policy_gate (policy : String → Bool × String)
    (runner : String → BashOutcome) (command : String) :
    ((policy command).1 = false →
      run_bash policy runner command =
        (.error ("Command blocked: " ++ (policy command).2), false)) ∧
    ((run_bash policy runner command).2 = true ↔ (policy command).1 = true) := by
  constructor
  · intro h
    simp [run_bash, h]
  · cases h : (policy command).1 with
    | false => simp [run_bash, h]
    | true =>
      simp only [run_bash, h]
      cases runner command <;> simp

/-- Witness for `run_bash_policy_gate`: Scenario C, a destructive command
denied by the policy. -/
theorem run_bash_policy_gate_witness :
    run_bash (fun _ => (false, "destructive root operation"))
      (fun _ => .raised "unreachable") "rm -rf /" =
      (.error "Command blocked: destructive root operation", false) :=
  ((run_bash_policy_gate (fun _ => (false, "destructive root operation"))
    (fun _ => .raised "unreachable") "rm -rf /").1 rfl).trans (by decide)

/-- Claim C9: `call_tool` on an adapter with no live child process — which
holds in the state before `start()` and in every state produced by
`stop()` — fails with the `MCPError`-derived error result and writes no
request to the child; it never silently succeeds. -/
theorem call_tool_not_running (st : MCP.AdapterState)
    (transport : MCP.RpcRequest → MCP.WireOutcome)
    (tool_name : String) (args : Args)
    (hdown : st.processRunning = false) :
    MCP.call_tool st transport tool_name args =
      (.error "MCP communication failed: MCP server not running", st, []) ∧
    (∀ t, (MCP.AdapterState.fresh t).processRunning = false) ∧
    (∀ st' : MCP.AdapterState, st'.stop.processRunning = false) := by
  refine ⟨?_, fun t => rfl, fun st' => rfl⟩
  simp [MCP.call_tool, MCP.sendRequest, hdown]

/-- Witness for `call_tool_not_running`: a freshly constructed adapter
rejects a browser tool call without contacting any child. -/
theorem call_tool_not_running_witness :
    MCP.call_tool (MCP.AdapterState.fresh "30.0") (fun _ => .timedOut)
      "puppeteer_navigate" [("url", .str "https://example.com")] =
      (.error "MCP communication failed: MCP server not running",
       MCP.AdapterState.fresh "30.0", []) :=
  (call_tool_not_running (MCP.AdapterState.fresh "30.0") (fun _ => .timedOut)
    "puppeteer_navigate" [("url", .str "https://example.com")] rfl).1

/-- Claim C10: In `read_file` the existence, file-type and decodability
checks take precedence over `offset`/`limit` validation: the
`NotFound`/`NotAFile`/`Unreadable` errors are returned for every offset
and limit, including invalid ones. -/
theorem read_file_checks_order (fs : FileSystem) (root : AbsPath)
    (path : String) (offset limit : Option Int) (file_path : AbsPath)
    (hval : validate_path root path = .ok file_path) :
    (fs.pathExists file_path = false →
      read_file fs root path offset limit =
        .ok (.error ("File not found: " ++ path))) ∧
    (fs.pathExists file_path = true → fs.isFile file_path = false →
      read_file fs root path offset limit =
        .ok (.error ("Not a file: " ++ path))) ∧
    (fs.lookupFile file_path = some .binary →
      read_file fs root path offset limit =
        .ok (.error ("Cannot read binary file: " ++ path))) := by
  refine ⟨fun h => ?_, fun h1 h2 => ?_, fun h => ?_⟩
  · simp [read_file, hval, h]
  · simp [read_file, hval, h1, h2]
  · have h1 : fs.pathExists file_path = true := by
      simp [FileSystem.pathExists, FileSystem.isFile, h]
    have h2 : fs.isFile file_path = true := by
      simp [FileSystem.isFile, h]
    simp [read_file, hval, h1, h2, h]

/-- Witness for `read_file_checks_order`: with a negative offset and a
zero limit, a missing file still reports `File not found` and a binary
file still reports `Cannot read binary file`. -/
theorem read_file_checks_order_witness :
    read_file ⟨[], [["sandbox"]]⟩ ["sandbox"] "missing.txt"
      (some (-1)) (some 0) = .ok (.error "File not found: missing.txt") ∧
    read_file ⟨[(["sandbox", "bin.dat"], .binary)], [["sandbox"]]⟩ ["sandbox"]
      "bin.dat" (some (-1)) (some 0) =
      .ok (.error "Cannot read binary file: bin.dat") := by
  constructor
  · exact (read_file_checks_order ⟨[], [["sandbox"]]⟩ ["sandbox"] "missing.txt"
      (some (-1)) (some 0) ["sandbox", "missing.txt"] (by decide)).1 (by decide)
  · exact (read_file_checks_order ⟨[(["sandbox", "bin.dat"], .binary)], [["sandbox"]]⟩
      ["sandbox"] "bin.dat" (some (-1)) (some 0) ["sandbox", "bin.dat"]
      (by decide)).2.2 (by decide)

/-- Claim C5: `read_file` pagination on a readable text file, with `offset`
or `limit` supplied: a negative offset or a limit below one is a
validation error; on an empty file offset 0 returns the zero-line
confirmation and any other offset an error; on a non-empty file an offset
at or beyond the line count is an error naming the total line count; and
otherwise the result is the `[lines {start+1}-{end} of {total}]` header,
with the end clamped to the total, followed by the selected lines. -/
theorem read_file_pagination (fs : FileSystem) (root : AbsPath)
    (path : String) (offset limit : Option Int) (file_path : AbsPath)
    (content : String)
    (hval : validate_path root path = .ok file_path)
    (hfile : fs.lookupFile file_path = some (.text content)) :
    (optIntNegative offset = true →
      read_file fs root path offset limit =
        .ok (.error "Offset must be zero or positive")) ∧
    (optIntNegative offset = false → optIntBelowOne limit = true →
      read_file fs root path offset limit =
        .ok (.error "Limit must be positive")) ∧
    (optIntNegative offset = false → optIntBelowOne limit = false →
      (offset ≠ none ∨ limit ≠ none) →
      ((pySplitlines content).length = 0 → (offset.getD 0).toNat = 0 →
        read_file fs root path offset limit =
          .ok (.result "[lines 0-0 of 0] (file is empty)")) ∧
      ((pySplitlines content).length = 0 → (offset.getD 0).toNat ≠ 0 →
        read_file fs root path offset limit =
          .ok (.error "Offset beyond end of file (file is empty)")) ∧
      (0 < (pySplitlines content).length →
        (pySplitlines content).length ≤ (offset.getD 0).toNat →
        read_file fs root path offset limit =
          .ok (.error ("Offset " ++ toString (offset.getD 0).toNat ++
            " beyond end of file (total " ++
            toString (pySplitlines content).length ++ " lines)"))) ∧
      ((offset.getD 0).toNat < (pySplitlines content).length →
        read_file fs root path offset limit =
          .ok (.result ("[lines " ++ toString ((offset.getD 0).toNat + 1) ++
            "-" ++
            toString (min
              (match limit with
                | some l => if l = 0 then ((pySplitlines content).length : Int)
                    else ((offset.getD 0).toNat : Int) + l
                | none => ((pySplitlines content).length : Int))
              ((pySplitlines content).length : Int)) ++
            " of " ++ toString (pySplitlines content).length ++ "]\n" ++
            String.intercalate "\n"
              (((pySplitlines content).drop (offset.getD 0).toNat).take
                ((match limit with
                  | some l => if l = 0 then ((pySplitlines content).length : Int)
                      else ((offset.getD 0).toNat : Int) + l
                  | none => ((pySplitlines content).length : Int)) -
                 ((offset.getD 0).toNat : Int)).toNat))))) := by
  have hex : fs.pathExists file_path = true := by
    simp [FileSystem.pathExists, FileSystem.isFile, hfile]
  have hisf : fs.isFile file_path = true := by
    simp [FileSystem.isFile, hfile]
  refine ⟨fun hneg => ?_, fun hpos hbad => ?_, fun hpos hok hsome => ?_⟩
  · simp [read_file, hval, hex, hisf, hfile, hneg]
  · simp [read_file, hval, hex, hisf, hfile, hpos, hbad]
  · have hpag : read_file fs root path offset limit =
        .ok (paginate content offset limit) := by
      rcases offset with _ | o
      · rcases limit with _ | l
        · rcases hsome with h | h <;> simp at h
        · simp [read_file, hval, hex, hisf, hfile, hpos, hok]
      · simp [read_file, hval, hex, hisf, hfile, hpos, hok]
    refine ⟨fun h0 hs0 => ?_, fun h0 hs0 => ?_, fun ht hge => ?_, fun hlt => ?_⟩
    · rw [hpag]; simp [paginate, h0, hs0]
    · rw [hpag]; simp [paginate, h0, hs0]
    · rw [hpag]
      have h1 : ¬ ((pySplitlines content).length = 0) := by omega
      simp [paginate, h1, hge]
    · rw [hpag]
      have h1 : ¬ ((pySplitlines content).length = 0) := by omega
      have h2 : ¬ ((pySplitlines content).length ≤ (offset.getD 0).toNat) := by omega
      simp [paginate, h1, h2]

/-- Witness for `read_file_pagination`: reading lines 2-3 of a five-line
file produces the clamping header and exactly those lines, and an offset
past the end names the true total. -/
theorem read_file_pagination_witness :
    read_file ⟨[(["sandbox", "f.txt"], .text "l1\nl2\nl3\nl4\nl5")],
        [["sandbox"]]⟩ ["sandbox"] "f.txt" (some 1) (some 2) =
      .ok (.result "[lines 2-3 of 5]\nl2\nl3") ∧
    read_file ⟨[(["sandbox", "f.txt"], .text "l1\nl2\nl3\nl4\nl5")],
        [["sandbox"]]⟩ ["sandbox"] "f.txt" (some 7) none =
      .ok (.error "Offset 7 beyond end of file (total 5 lines)") := by
  constructor
  · exact (((read_file_pagination ⟨[(["sandbox", "f.txt"],
        .text "l1\nl2\nl3\nl4\nl5")], [["sandbox"]]⟩ ["sandbox"] "f.txt"
        (some 1) (some 2) ["sandbox", "f.txt"] "l1\nl2\nl3\nl4\nl5"
        (by decide) (by decide)).2.2 (by decide) (by decide)
        (by simp)).2.2.2 (by decide)).trans (by decide)
  · exact (((read_file_pagination ⟨[(["sandbox", "f.txt"],
        .text "l1\nl2\nl3\nl4\nl5")], [["sandbox"]]⟩ ["sandbox"] "f.txt"
        (some 7) none ["sandbox", "f.txt"] "l1\nl2\nl3\nl4\nl5"
        (by decide) (by decide)).2.2 (by decide) (by decide)
        (by simp)).2.2.1 (by decide) (by decide)).trans (by decide)

/-- Claim C7: A `grep_search` invocation that reaches the external search
utility (ripgrep available, `head_limit`/`offset`/`output_mode` valid,
path validated) hands the utility's outcome to the post-processing step,
which maps: an exit code outside {0,1} to an error; exit code 1 with
empty output to the `No matches found` success; and otherwise slices the
output lines starting at `offset` for `head_limit` lines, appending the
truncation marker exactly when `head_limit` is set and more output lines
exist beyond the returned window. -/
theorem grep_search_post_utility (runner : List String → RunOut)
    (root : AbsPath) (pattern : String) (path : Option String)
    (glob_pattern file_type : Option String) (output_mode : String)
    (before after context : Option Int) (line_numbers ignore_case : Option Bool)
    (head_limit offset : Option Int) (multiline : Bool)
    (target_path : AbsPath) (out : RunOut)
    (hhl : optIntBelowOne head_limit = false)
    (hoff : optIntNegative offset = false)
    (hmode : (if output_mode = "" then "files_with_matches" else output_mode)
        = "content" ∨
      (if output_mode = "" then "files_with_matches" else output_mode)
        = "files_with_matches" ∨
      (if output_mode = "" then "files_with_matches" else output_mode) = "count")
    (hval : validate_path root
        (match path with | none => "." | some p => if p = "" then "." else p) =
      .ok target_path) :
    (∃ cmd, grep_search true runner root pattern path glob_pattern file_type
        output_mode before after context line_numbers ignore_case
        head_limit offset multiline =
          .ok (grepPost (runner cmd) head_limit offset)) ∧
    (¬ (out.returncode = 0 ∨ out.returncode = 1) →
      grepPost out head_limit offset =
        .error (if pyStrip out.stderr = "" then
          "rg failed with exit code " ++ toString out.returncode
          else pyStrip out.stderr)) ∧
    (out.returncode = 1 → pyStrip out.stdout = "" →
      grepPost out head_limit offset = .result "No matches found") ∧
    ((out.returncode = 0 ∨ out.returncode = 1) →
      ¬ (out.returncode = 1 ∧ pyStrip out.stdout = "") →
      ((pySplitlines (pyStrip out.stdout)).length ≤ (offset.getD 0).toNat →
        grepPost out head_limit offset = .error "Offset skips all output") ∧
      ((offset.getD 0).toNat < (pySplitlines (pyStrip out.stdout)).length →
        grepPost out head_limit offset = .result
          ((fun output => if output = "" then "(no output)" else output)
            ((fun output0 => if pyStrip out.stderr = "" then output0
                else output0 ++ "\n[stderr]: " ++ pyStrip out.stderr)
              (String.intercalate "\n"
                ((fun sliced =>
                    if headLimitTruthy head_limit = true ∧
                        grepStop head_limit (offset.getD 0).toNat
                            (pySplitlines (pyStrip out.stdout)).length <
                          (pySplitlines (pyStrip out.stdout)).length then
                      sliced ++ ["... (results truncated)"]
                    else sliced)
                  (List.take
                    (grepStop head_limit (offset.getD 0).toNat
                        (pySplitlines (pyStrip out.stdout)).length -
                      (offset.getD 0).toNat)
                    (List.drop (offset.getD 0).toNat
                      (pySplitlines (pyStrip out.stdout)))))))))) := by
  refine ⟨?_, fun hrc => ?_, fun hrc hempty => ?_, fun h01 hno => ⟨fun hle => ?_, fun hlt => ?_⟩⟩
  · rcases hmode with h | h | h <;>
      exact ⟨_, by simp [grep_search, hhl, hoff, hval, h] ; try rfl⟩
  · simp [grepPost, hrc]
  · simp [grepPost, hrc, hempty]
  · rcases h01 with h0 | h1
    · simp [grepPost, h0, hle]
    · have hs : ¬ (pyStrip out.stdout = "") := fun he => hno ⟨h1, he⟩
      simp [grepPost, h1, hs, hle]
  · have h2 : ¬ ((pySplitlines (pyStrip out.stdout)).length ≤
        (offset.getD 0).toNat) := by omega
    rcases h01 with h0 | h1
    · simp [grepPost, h0, h2] ; try rfl
    · have hs : ¬ (pyStrip out.stdout = "") := fun he => hno ⟨h1, he⟩
      simp [grepPost, h1, hs, h2] ; try rfl

/-- Witness for `grep_search_post_utility`: Scenario D — five matching
lines, `head_limit = 2`, `offset = 1` — returns lines 2-3 plus the
truncation marker. -/
theorem grep_search_post_utility_witness :
    grep_search true (fun _ => ⟨0, "m1\nm2\nm3\nm4\nm5\n", ""⟩) ["sandbox"]
      "TODO" none none none "content" none none none none none
      (some 2) (some 1) false =
      .ok (.result "m2\nm3\n... (results truncated)") := by
  obtain ⟨cmd, hcmd⟩ := (grep_search_post_utility
    (fun _ => ⟨0, "m1\nm2\nm3\nm4\nm5\n", ""⟩) ["sandbox"] "TODO" none none
    none "content" none none none none none (some 2) (some 1) false
    ["sandbox"] ⟨0, "m1\nm2\nm3\nm4\nm5\n", ""⟩ rfl rfl (by simp)
    (by decide)).1
  rw [hcmd]
  have h4 := ((grep_search_post_utility
    (fun _ => ⟨0, "m1\nm2\nm3\nm4\nm5\n", ""⟩) ["sandbox"] "TODO" none none
    none "content" none none none none none (some 2) (some 1) false
    ["sandbox"] ⟨0, "m1\nm2\nm3\nm4\nm5\n", ""⟩ rfl rfl (by simp)
    (by decide)).2.2.2 (Or.inl rfl) (by decide)).2 (by decide)
  exact congrArg Except.ok (h4.trans (by decide))

/-- Claim C3: On an existing text file containing `old_string` N > 1 times:
with `replace_all = false`, `edit_file` rewrites the file with only the
first occurrence replaced (the decomposition at the first occurrence is
exhibited) and reports count 1; with `replace_all = true` it replaces all
N occurrences (in the sense of the `ReplAll` characterisation) and
reports exactly N. -/
theorem edit_file_replace_counts (fs : FileSystem) (root : AbsPath)
    (path old_string new_string : String) (file_path : AbsPath)
    (content : String) (N : Nat)
    (hval : validate_path root path = .ok file_path)
    (hfile : fs.lookupFile file_path = some (.text content))
    (hnotdir : fs.isDir file_path = false)
    (hold : old_string ≠ "")
    (hN : strCount content.data old_string.data = N)
    (hmulti : 1 < N) :
    (∃ pre post,
      content.data = pre ++ old_string.data ++ post ∧
      (∀ k, k < pre.length →
        old_string.data.isPrefixOf (content.data.drop k) = false) ∧
      edit_file fs root path old_string new_string false =
        (.ok (.result ("Replaced " ++ toString (1 : Nat) ++
          " occurrence(s) in " ++ path)),
         { fs with files := (setFileEntry fs.files file_path
             (.text (pre ++ new_string.data ++ post).asString)) })) ∧
    (∃ result_chars,
      ReplAll old_string.data new_string.data content.data result_chars N ∧
      edit_file fs root path old_string new_string true =
        (.ok (.result ("Replaced " ++ toString N ++
          " occurrence(s) in " ++ path)),
         { fs with files := (setFileEntry fs.files file_path
             (.text result_chars.asString)) })) := by
  have holdl : old_string.data ≠ [] := by
    intro h
    exact hold (String.ext (h.trans rfl))
  have hex : fs.pathExists file_path = true := by
    simp [FileSystem.pathExists, FileSystem.isFile, hfile]
  have h0 : ¬ (strCount content.data old_string.data = 0) := by omega
  have hN0 : ¬ N = 0 := by omega
  constructor
  · obtain ⟨pre, post, hsplit, hearly, hrepl⟩ :=
      strReplace_first_occurrence_ne content.data old_string.data
        new_string.data holdl (by omega)
    refine ⟨pre, post, hsplit, hearly, ?_⟩
    simp [edit_file, hval, hex, hfile, h0, FileSystem.writeText, hnotdir, hrepl]
  · refine ⟨strReplace content.data old_string.data new_string.data none,
      ?_, ?_⟩
    · rw [← hN]
      exact strReplace_all_replAll content.data old_string.data
        new_string.data holdl
    · simp [edit_file, hval, hex, hfile, h0, hN0, FileSystem.writeText, hnotdir, hN]

/-- Witness for `edit_file_replace_counts`: the string `TODO` occurs
twice; `replace_all = false` reports count 1 and `replace_all = true`
reports count 2. -/
theorem edit_file_replace_counts_witness :
    (∃ pre post,
      ("x TODO y TODO z").data = pre ++ ("TODO").data ++ post ∧
      (∀ k, k < pre.length →
        ("TODO").data.isPrefixOf (("x TODO y TODO z").data.drop k) = false) ∧
      edit_file ⟨[(["sandbox", "f.txt"], .text "x TODO y TODO z")],
          [["sandbox"]]⟩ ["sandbox"] "f.txt" "TODO" "DONE" false =
        (.ok (.result ("Replaced " ++ toString (1 : Nat) ++
          " occurrence(s) in " ++ "f.txt")),
         { files := (setFileEntry
             [(["sandbox", "f.txt"], .text "x TODO y TODO z")]
             ["sandbox", "f.txt"] (.text (pre ++ ("DONE").data ++ post).asString)),
           dirs := [["sandbox"]] })) ∧
    (∃ result_chars,
      ReplAll ("TODO").data ("DONE").data ("x TODO y TODO z").data
        result_chars 2 ∧
      edit_file ⟨[(["sandbox", "f.txt"], .text "x TODO y TODO z")],
          [["sandbox"]]⟩ ["sandbox"] "f.txt" "TODO" "DONE" true =
        (.ok (.result ("Replaced " ++ toString (2 : Nat) ++
          " occurrence(s) in " ++ "f.txt")),
         { files := (setFileEntry
             [(["sandbox", "f.txt"], .text "x TODO y TODO z")]
             ["sandbox", "f.txt"] (.text result_chars.asString)),
           dirs := [["sandbox"]] })) :=
  edit_file_replace_counts
    ⟨[(["sandbox", "f.txt"], .text "x TODO y TODO z")], [["sandbox"]]⟩
    ["sandbox"] "f.txt" "TODO" "DONE" ["sandbox", "f.txt"]
    "x TODO y TODO z" 2 (by decide) (by decide) (by decide) (by decide)
    (by simp [strCount]) (by decide)

/-! ## Lemmas about the filesystem primitives, used by the `write_file`
claim. -/

theorem lookup_setFileEntry_self (files : List (AbsPath × Content))
    (p : AbsPath) (c : Content) :
    (setFileEntry files p c).lookup p = some c := by
  induction files with
  | nil => simp [setFileEntry]
  | cons hd tl ih =>
    obtain ⟨q, d⟩ := hd
    by_cases h : q = p
    · subst h
      simp [setFileEntry]
    · have h' : (p == q) = false := by
        simp [Ne.symm h]
      simp [setFileEntry, h, List.lookup, h', ih]

theorem lookup_setFileEntry_ne (files : List (AbsPath × Content))
    (p q : AbsPath) (c : Content) (h : q ≠ p) :
    (setFileEntry files p c).lookup q = files.lookup q := by
  have hqp : (q == p) = false := by simp [h]
  induction files with
  | nil => simp [setFileEntry, List.lookup, hqp]
  | cons hd tl ih =>
    obtain ⟨r, d⟩ := hd
    by_cases hr : r = p
    · subst hr
      simp [setFileEntry, List.lookup, hqp]
    · simp [setFileEntry, hr, List.lookup, ih]

theorem length_le_of_mem_ancestors {q p : AbsPath} (h : q ∈ ancestors p) :
    q.length ≤ p.length := by
  simp only [ancestors, List.mem_map, List.mem_range] at h
  obtain ⟨n, hn, rfl⟩ := h
  simp

theorem validate_path_ok_elim {root : AbsPath} {path : String}
    {file_path : AbsPath} (h : validate_path root path = .ok file_path) :
    root.isPrefixOf file_path = true ∧
      file_path = resolveAgainst root path := by
  by_cases hp : root.isPrefixOf (resolveAgainst root path)
  · simp only [validate_path, hp, if_true, Except.ok.injEq] at h
    exact ⟨h ▸ hp, h.symm⟩
  · simp [validate_path, hp] at h

theorem ne_nil_of_isPrefixOf {root fp : AbsPath}
    (h : root.isPrefixOf fp = true) (hroot : root ≠ []) : fp ≠ [] := by
  intro hfp
  subst hfp
  obtain ⟨t, ht⟩ := List.isPrefixOf_iff_prefix.mp h
  rw [List.append_eq_nil] at ht
  exact hroot ht.1

/-- Claim C6, amended: for every in-sandbox path whose resolution is not an
existing directory and none of whose ancestors is an existing regular
file (with the sandbox root a proper directory, not the filesystem root),
`write_file` creates all missing parent directories, binds the file to
exactly the given content (fully overwriting any previous content, all
other files untouched), and reports `len(content)` as the byte count. -/
theorem write_file_creates_and_overwrites (fs : FileSystem) (root : AbsPath)
    (path content : String) (file_path : AbsPath)
    (hroot : root ≠ [])
    (hval : validate_path root path = .ok file_path)
    (hnotdir : fs.isDir file_path = false)
    (hparents : ∀ q ∈ ancestors file_path.dropLast, fs.isFile q = false) :
    ∃ fs' : FileSystem,
      write_file fs root path content =
        (.ok (.result ("Successfully wrote " ++ toString content.length ++
          " bytes to " ++ path)), fs') ∧
      fs'.lookupFile file_path = some (.text content) ∧
      (∀ q ∈ ancestors file_path.dropLast, fs'.isDir q = true) ∧
      (∀ p', p' ≠ file_path → fs'.lookupFile p' = fs.lookupFile p') := by
  obtain ⟨hpre, hres⟩ := validate_path_ok_elim hval
  have hfp_ne : file_path ≠ [] := ne_nil_of_isPrefixOf hpre hroot
  have hmk : (ancestors file_path.dropLast).any (fun q => fs.isFile q) = false := by
    rw [List.any_eq_false]
    intro q hq
    simp [hparents q hq]
  have hmkdir : fs.mkdirParents file_path.dropLast =
      .ok { fs with dirs := ((ancestors file_path.dropLast).filter
        (fun q => ¬ fs.isDir q)) ++ fs.dirs } := by
    simp [FileSystem.mkdirParents, hmk]
  have hfp_not_anc : file_path ∉
      (ancestors file_path.dropLast).filter (fun q => ¬ fs.isDir q) := by
    intro hmem
    have hlen := length_le_of_mem_ancestors (List.mem_of_mem_filter hmem)
    rw [List.length_dropLast] at hlen
    have : 0 < file_path.length := List.length_pos.mpr hfp_ne
    omega
  have hnotmem : file_path ∉ fs.dirs := by
    intro hmem
    have : fs.isDir file_path = true := by
      simp only [FileSystem.isDir, List.contains]
      exact List.elem_iff.mpr hmem
    rw [this] at hnotdir
    cases hnotdir
  have hnotdir1 :
      (({ fs with dirs := ((ancestors file_path.dropLast).filter
        (fun q => ¬ fs.isDir q)) ++ fs.dirs } : FileSystem)).isDir file_path
        = false := by
    simp only [FileSystem.isDir, List.contains]
    rw [Bool.eq_false_iff]
    intro helem
    rcases List.mem_append.mp (List.elem_iff.mp helem) with hm | hm
    · exact hfp_not_anc hm
    · exact hnotmem hm
  refine ⟨{ files := setFileEntry fs.files file_path (.text content),
            dirs := ((ancestors file_path.dropLast).filter
              (fun q => ¬ fs.isDir q)) ++ fs.dirs }, ?_, ?_, ?_, ?_⟩
  · simp only [write_file, hval, hmkdir, FileSystem.writeText, hnotdir1,
      if_false, Bool.false_eq_true]
  · simp [FileSystem.lookupFile, lookup_setFileEntry_self]
  · intro q hq
    simp only [FileSystem.isDir, List.contains]
    rw [List.elem_iff]
    rw [List.mem_append]
    by_cases hd : fs.isDir q = true
    · right
      simp only [FileSystem.isDir, List.contains] at hd
      exact List.elem_iff.mp hd
    · left
      refine List.mem_filter.mpr ⟨hq, ?_⟩
      have hnm : q ∉ fs.dirs := fun hm => hd (by
        simp only [FileSystem.isDir, List.contains]
        exact List.elem_iff.mpr hm)
      simp [FileSystem.isDir, List.contains, hnm]
  · intro p' hp'
    simp [FileSystem.lookupFile, lookup_setFileEntry_ne _ _ _ _ hp']

/-- Counterexample for claim C6: the claim quantifies over *every* in-sandbox path,
but the in-sandbox path `.` resolves to the sandbox root itself, an
existing directory; `write_text` then raises `IsADirectoryError`, which
`execute` surfaces as an error dict — no byte-count success, no write. -/
theorem write_file_on_directory_counterexample :
    validate_path ["sandbox"] "." = .ok ["sandbox"] ∧
    write_file ⟨[], [[], ["sandbox"]]⟩ ["sandbox"] "." "buy milk" =
      (.error (.otherError "Is a directory: /sandbox"),
       ⟨[], [[], ["sandbox"]]⟩) ∧
    (execute ⟨["sandbox"], true, fun _ => ⟨0, "", ""⟩, fun _ => (true, ""),
        fun _ => .timedOut, fun _ _ => [], none⟩ ⟨[], [[], ["sandbox"]]⟩
      "write_file" [("path", .str "."), ("content", .str "buy milk")]).1 =
      .error "Tool execution failed: Is a directory: /sandbox" := by
  refine ⟨by decide, by decide, by decide⟩

/-- Witness for `write_file_creates_and_overwrites`: Scenario A — writing
`buy milk` to `notes/todo.txt` in a fresh sandbox creates `notes/` and
reports 8 bytes. -/
theorem write_file_creates_and_overwrites_witness :
    ∃ fs' : FileSystem,
      write_file ⟨[], [[], ["sandbox"]]⟩ ["sandbox"] "notes/todo.txt"
          "buy milk" =
        (.ok (.result "Successfully wrote 8 bytes to notes/todo.txt"), fs') ∧
      fs'.lookupFile ["sandbox", "notes", "todo.txt"] =
        some (.text "buy milk") ∧
      fs'.isDir ["sandbox", "notes"] = true := by
  obtain ⟨fs', h1, h2, h3, _⟩ := write_file_creates_and_overwrites
    ⟨[], [[], ["sandbox"]]⟩ ["sandbox"] "notes/todo.txt" "buy milk"
    ["sandbox", "notes", "todo.txt"] (by decide) (by decide) (by decide)
    (by decide)
  refine ⟨fs', ?_, h2, h3 ["sandbox", "notes"] (by decide)⟩
  have hmsg : ("Successfully wrote " ++ toString ("buy milk").length ++
      " bytes to " ++ "notes/todo.txt") =
      "Successfully wrote 8 bytes to notes/todo.txt" := by decide
  rw [hmsg] at h1
  exact h1

end ToolExec
